import Mathlib

/-!
# Verification of the yoga-pose image-generation script (`main.py`)

Shallow embedding of the orchestration core of the single source file
`main.py` of the repository: prompt construction (`craft_prompt`), sheet-row
normalization (`get_sheet_data`), the three image-generation provider
variants with the polling loop of the Ideogram variant, the Drive upload
URL cleanup (`upload_image_to_drive`), the sheet cell update
(`update_sheet_with_image`), and the per-row orchestration loop of
`main`.  External HTTP effects are modelled by explicit environments;
Python exceptions are modelled with `Except`/`Option` values, and an
uncaught exception propagates as an `Except.error` that aborts the run,
exactly as in the source, where only the provider calls sit inside
`try`/`except` blocks.
-/

namespace YogaGen

/-! ## Python string primitives -/

/-- Python `str.isspace` characters relevant to `str.strip()`. -/
def isPySpace (c : Char) : Bool :=
  c = ' ' || c = '\t' || c = '\n' || c = '\r' || c = '\x0b' || c = '\x0c'

/-- Python `str.strip()` on a character list: drop leading and trailing
whitespace. -/
def pyStripL (s : List Char) : List Char :=
  ((s.dropWhile isPySpace).reverse.dropWhile isPySpace).reverse

/-- Python `str.strip()`. -/
def pyStrip (s : String) : String :=
  String.mk (pyStripL s.toList)

/-- One left-to-right, non-overlapping pass of Python
`str.replace(pat, rep)` over a character list, fuelled by the input
length (each step consumes at least one character, so fuel equal to the
input length suffices). -/
def pyReplaceAux (pat rep : List Char) : Nat → List Char → List Char
  | 0, s => s
  | _ + 1, [] => []
  | fuel + 1, c :: rest =>
    if pat.isPrefixOf (c :: rest) then
      rep ++ pyReplaceAux pat rep fuel (List.drop (pat.length - 1) rest)
    else
      c :: pyReplaceAux pat rep fuel rest

/-- Python `str.replace(pat, rep)` (for non-empty `pat`). -/
def pyReplace (pat rep s : String) : String :=
  String.mk (pyReplaceAux pat.toList rep.toList s.toList.length s.toList)

/-- Whether `pat` occurs as a contiguous substring of `s`
(Python `pat in s`). -/
def containsSub (pat : List Char) : List Char → Bool
  | [] => pat.isEmpty
  | c :: rest => pat.isPrefixOf (c :: rest) || containsSub pat rest

/-- Interleaving of a list of segments with a separator: the string
whose occurrences of the separator stand exactly between consecutive
segments. -/
def joinSep (sep : List Char) : List (List Char) → List Char
  | [] => []
  | [p] => p
  | p :: q :: rs => p ++ (sep ++ joinSep sep (q :: rs))

/-- Decidable side condition under which the left-to-right
replacement scan matches exactly at the separator positions of
`joinSep pat segs`: no match of `pat` starts inside a segment (with
the remaining text as lookahead), and the final segment contains no
occurrence at all. -/
def cleanSegs (pat : List Char) : List (List Char) → Bool
  | [] => true
  | [p] => !containsSub pat p
  | p :: q :: rs =>
    (List.range p.length).all
      (fun i => !pat.isPrefixOf (List.drop i p ++ (pat ++ joinSep pat (q :: rs))))
    && cleanSegs pat (q :: rs)

/-! ## Sheet reading (`get_sheet_data`, lines 101-114)

the row is right-padded with empty strings up to the header length
(a Python list multiplied by a negative count is empty, matching `Nat`
subtraction), then zipped with the headers into a dict.  The dict is
kept as the association list the zip produces; the dict lookup with
empty-string default and last-occurrence-wins semantics for duplicate
keys is `dictGet`. -/

/-- The row right-padded with empty strings up to the header length. -/
def row_extended (headers row : List String) : List String :=
  row ++ List.replicate (headers.length - row.length) ""

/-- Model of the dict built in `get_sheet_data` by zipping, kept as
the association list `zip` produces (Python `zip` truncates to the
shorter list). -/
def sheet_row_dict (headers row : List String) : List (String × String) :=
  List.zip headers (row_extended headers row)

/-- Model of `get_sheet_data`: empty response yields `[]`; otherwise the first
row is the header and each remaining row becomes a dict. -/
def get_sheet_data (values : List (List String)) : List (List (String × String)) :=
  match values with
  | [] => []
  | headers :: rows => rows.map (sheet_row_dict headers)

/-- Python dict lookup with empty-string default on a dict built by
zipping: the value of the last pair with the given key, or `""`. -/
def dictGet (d : List (String × String)) (k : String) : String :=
  match d.reverse.find? (fun p => p.1 == k) with
  | some p => p.2
  | none => ""

/-! ## Prompt construction (`craft_prompt`, lines 116-138) -/

/-- Model of `craft_prompt`: assemble the f-string of line 132 — style, space,
title, the fixed text yoga pose with a comma, background color, the
fixed text background with a period, theme — then the cleanup of line
135: replace every occurrence of the text None by nothing, replace
every space pair by one space in a single pass, and strip. -/
def craft_prompt (pose_data : List (String × String)) : String :=
  let style := dictGet pose_data "Image Style"
  let bg_color := dictGet pose_data "Background Color"
  let theme := dictGet pose_data "Theme Description"
  let pose := dictGet pose_data "Content Title"
  let prompt := style ++ " " ++ pose ++ " yoga pose, " ++ bg_color ++ " background. " ++ theme
  pyStrip (pyReplace "  " " " (pyReplace "None" "" prompt))

/-- Character list of the assembled prompt of line 132, before the
cleanup of line 135. -/
def assembled_prompt (pose_data : List (String × String)) : List Char :=
  (dictGet pose_data "Image Style" ++ " " ++ dictGet pose_data "Content Title"
    ++ " yoga pose, " ++ dictGet pose_data "Background Color"
    ++ " background. " ++ dictGet pose_data "Theme Description").toList

/-! ## Image-generation providers (lines 140-331)

Each provider reads its API key from the environment, performs HTTP
calls inside a `try`/`except` block and returns `None` on any failure,
so a provider call never raises.  HTTP responses are modelled by
explicit environment records. -/

/-- Model of `generate_image_openai` (lines 140-183): missing
`OPENAI_API_KEY` is logged and yields `None`; otherwise the response is
a decoded base64 payload, or `None` on an HTTP error or a malformed
body (the surrounding `except` clause). -/
structure OpenAIEnv where
  apiKey : Option String
  responseBytes : Option (List Nat)
deriving DecidableEq

def generate_image_openai (env : OpenAIEnv) : Option (List Nat) :=
  match env.apiKey with
  | none => none
  | some _ => env.responseBytes

/-- Model of `generate_image_stability` (lines 256-308): missing
`STABILITY_API_KEY` yields `None`; the response carries a list of
artifacts and the decoded payload of the first artifact is returned, `None`
when the list is empty or absent. -/
structure StabilityEnv where
  apiKey : Option String
  artifacts : List (List Nat)
deriving DecidableEq

def generate_image_stability (env : StabilityEnv) : Option (List Nat) :=
  match env.apiKey with
  | none => none
  | some _ =>
    match env.artifacts with
    | [] => none
    | a :: _ => some a

/-- One response of the Ideogram status endpoint:
`status_data.get("state")` and `status_data.get("image_url")`. -/
structure PollStatus where
  state : String
  image_url : Option String
deriving DecidableEq

/-- The single failure exit of the Ideogram polling loop: the code
logs `"Image generation timed out or failed"` and returns `None`; the
spec calls the budget-exhaustion instance of this path
`TimeoutFailure`. -/
inductive IdeoFailure where
  | timeoutFailure
deriving DecidableEq

/-- Result of the polling loop body. -/
inductive IdeoResult where
  | ok (bytes : List Nat)
  | err (f : IdeoFailure)
deriving DecidableEq

/-- The polling loop of `generate_image_ideogram` (lines 229-250):
`for attempt in range(max_attempts): time.sleep(2); ...` —
each iteration first waits 2 time-units, then polls; on
`state == "completed"` it downloads the image (success only on HTTP
200) and leaves the loop; any other state polls again; an exhausted
budget falls through to the failure return.  Arguments: image fetch
oracle, status oracle (poll `i` sees `st i`), current attempt index,
remaining budget.  Returns the result, the number of polls performed
and the total time waited. -/
def pollAux (f : String → Option (List Nat)) (st : Nat → PollStatus) :
    Nat → Nat → IdeoResult × Nat × Nat
  | _, 0 => (.err .timeoutFailure, 0, 0)
  | attempt, b + 1 =>
    if (st attempt).state = "completed" then
      match (st attempt).image_url with
      | some url =>
        match f url with
        | some bytes => (.ok bytes, 1, 2)
        | none => (.err .timeoutFailure, 1, 2)
      | none => (.err .timeoutFailure, 1, 2)
    else
      let r := pollAux f st (attempt + 1) b
      (r.1, r.2.1 + 1, r.2.2 + 2)

/-- Constant `max_attempts = 30` (line 229). -/
def max_attempts : Nat := 30

/-- Environment of `generate_image_ideogram` (lines 185-254): the API
key lookup, the `generation_id` of the initial response, the status
endpoint and the image download. -/
structure IdeoEnv where
  apiKey : Option String
  generationId : Option String
  statuses : Nat → PollStatus
  fetchImage : String → Option (List Nat)

/-- Model of `generate_image_ideogram`: missing `IDEOGRAM_API_KEY` yields
`None`; a missing `generation_id` yields `None`; otherwise the result
of the polling loop, with every failure collapsed to `None`. -/
def generate_image_ideogram (env : IdeoEnv) : Option (List Nat) :=
  match env.apiKey with
  | none => none
  | some _ =>
    match env.generationId with
    | none => none
    | some _ =>
      match (pollAux env.fetchImage env.statuses 0 max_attempts).1 with
      | .ok bytes => some bytes
      | .err _ => none

/-- The three provider environments of one `generate_image` call. -/
structure ProviderEnvs where
  openai : OpenAIEnv
  ideogram : IdeoEnv
  stability : StabilityEnv

/-- Model of `generate_image` (lines 310-331): string-keyed dispatch over the
three providers; an unrecognized `api` is logged
(`"Unsupported API"`) and yields `None` without contacting any
provider. -/
def generate_image (envs : ProviderEnvs) (prompt : String) (api : String) :
    Option (List Nat) :=
  if api = "openai" then generate_image_openai envs.openai
  else if api = "ideogram" then generate_image_ideogram envs.ideogram
  else if api = "stability" then generate_image_stability envs.stability
  else none

/-! ## Storage and sheet write (lines 333-412) -/

/-- A Python exception escaping an API call that is not inside any
`try`/`except` block. -/
structure TransportError where
  msg : String
deriving DecidableEq

/-- The Drive file object returned by the file-create call: its id
and its webContentLink field (empty-string default). -/
structure DriveFile where
  id : String
  webContentLink : Option String
deriving DecidableEq

/-- Environment of one `upload_image_to_drive` call: the file-create
call and the permission-grant call, either of which may raise. -/
structure DriveEnv where
  createResult : Except TransportError DriveFile
  permissionResult : Except TransportError Unit

/-- Line 376: remove the text &export=download from the link. -/
def clean_download_link (link : String) : String :=
  pyReplace "&export=download" "" link

/-- Model of `upload_image_to_drive` (lines 333-381): create the file, grant
public read access, then return the cleaned `webContentLink`.  No
`try`/`except` here: an error in either call propagates to the
caller. -/
def upload_image_to_drive (env : DriveEnv) (image_data : List Nat)
    (filename : String) : Except TransportError String :=
  match env.createResult with
  | .error e => .error e
  | .ok file =>
    match env.permissionResult with
    | .error e => .error e
    | .ok _ => .ok (clean_download_link (file.webContentLink.getD ""))

/-- Model of `update_sheet_with_image` (lines 383-412): the A1 range built as
Sheet1!E followed by row plus one, and the IMAGE formula with display
mode 3 embedding the URL, written there.  No try/except: an error in
the update call propagates. -/
def update_sheet_with_image (row : Nat) (image_url : String) : String × String :=
  ("Sheet1!E" ++ toString (row + 1), "=IMAGE(\"" ++ image_url ++ "\", 3)")

/-! ## The per-row orchestration loop of `main` (lines 438-462) -/

/-- The filename of line 454: the prefix yoga_, the lower-cased title
with spaces replaced by underscores, and the suffix .png. -/
def pose_filename (pose_name : String) : String :=
  "yoga_" ++ String.mk ((pose_name.toList.map Char.toLower).map
    (fun c => if c = ' ' then '_' else c)) ++ ".png"

/-- Observable side effects of one row: a prompt handed to
`generate_image`, a completed Drive upload, a sheet cell update. -/
inductive Effect where
  | promptSent (prompt : String)
  | uploaded (filename : String) (url : String)
  | sheetWrite (range : String) (formula : String)
deriving DecidableEq

/-- The body of the `for i, pose_data in enumerate(yoga_poses)` loop
for one row at zero-based data index `i`: skip on an empty
Content Title cell; otherwise craft the prompt and generate; a `None`
generation result is logged and the loop continues; on success, upload
and then update the sheet at row `i + 1` (1-based data position) —
these two calls are unprotected, so their errors escape the row.
Returns the effects performed and the escaping error, if any. -/
def processRow (api : String) (pens : ProviderEnvs) (denv : DriveEnv)
    (ures : Except TransportError Unit) (i : Nat)
    (pose_data : List (String × String)) : List Effect × Option TransportError :=
  let pose_name := dictGet pose_data "Content Title"
  if pose_name = "" then ([], none)
  else
    let prompt := craft_prompt pose_data
    match generate_image pens prompt api with
    | none => ([.promptSent prompt], none)
    | some image_data =>
      let filename := pose_filename pose_name
      match upload_image_to_drive denv image_data filename with
      | .error e => ([.promptSent prompt], some e)
      | .ok image_url =>
        let cell := update_sheet_with_image (i + 1) image_url
        match ures with
        | .error e => ([.promptSent prompt, .uploaded filename image_url], some e)
        | .ok _ =>
          ([.promptSent prompt, .uploaded filename image_url,
            .sheetWrite cell.1 cell.2], none)

/-- The row loop of `main`: process rows in order starting at data
index `i`; an error escaping a row aborts the remaining rows, exactly
as an uncaught Python exception leaves the `for` loop. -/
def runRows (api : String) (pens : Nat → ProviderEnvs) (denvs : Nat → DriveEnv)
    (ures : Nat → Except TransportError Unit) (i : Nat) :
    List (List (String × String)) → List Effect × Option TransportError
  | [] => ([], none)
  | pose :: rest =>
    let r := processRow api (pens i) (denvs i) (ures i) i pose
    match r.2 with
    | some e => (r.1, some e)
    | none =>
      let r2 := runRows api pens denvs ures (i + 1) rest
      (r.1 ++ r2.1, r2.2)

/-- Model of `main` from sheet values to batch outcome: read and normalize the
sheet, then run the row loop from index 0. -/
def main_run (api : String) (pens : Nat → ProviderEnvs) (denvs : Nat → DriveEnv)
    (ures : Nat → Except TransportError Unit) (values : List (List String)) :
    List Effect × Option TransportError :=
  runRows api pens denvs ures 0 (get_sheet_data values)

/-- Number of completed uploads among the effects of a row. -/
def countUploads (effs : List Effect) : Nat :=
  (effs.filter fun e => match e with
    | Effect.uploaded _ _ => true
    | _ => false).length

/-- Number of sheet cell writes among the effects of a row. -/
def countWrites (effs : List Effect) : Nat :=
  (effs.filter fun e => match e with
    | Effect.sheetWrite _ _ => true
    | _ => false).length

/-- Number of prompts handed to `generate_image` among the effects
of a row. -/
def countPrompts (effs : List Effect) : Nat :=
  (effs.filter fun e => match e with
    | Effect.promptSent _ => true
    | _ => false).length

/-! ## Sample environments used by witnesses -/

/-- Status oracle: 29 polls of state processing, then completed. -/
def stProcessing : Nat → PollStatus :=
  fun i => if i < 29 then ⟨"processing", none⟩ else ⟨"completed", some "https://img/u.png"⟩

/-- Status oracle: the provider reports state failed forever. -/
def stFailed : Nat → PollStatus := fun _ => ⟨"failed", none⟩

/-- Image fetch oracle: HTTP 200 with a fixed payload on the sample URL. -/
def fetchSample : String → Option (List Nat) :=
  fun u => if u = "https://img/u.png" then some [137, 80, 78, 71] else none

def openaiEnvSample : OpenAIEnv := ⟨some "okey", some [137, 80]⟩

def ideoEnvSample : IdeoEnv := ⟨some "ikey", some "gid", stProcessing, fetchSample⟩

def stabilityEnvSample : StabilityEnv := ⟨some "skey", [[1, 2]]⟩

def pensSample : ProviderEnvs := ⟨openaiEnvSample, ideoEnvSample, stabilityEnvSample⟩

/-- Provider environments in which every API key lookup fails. -/
def pensNoKey : ProviderEnvs :=
  ⟨⟨none, some [137, 80]⟩, ⟨none, some "gid", stFailed, fetchSample⟩, ⟨none, [[1]]⟩⟩

def drvOk : DriveEnv :=
  ⟨.ok ⟨"fid", some "https://drive.google.com/uc?id=1&export=download"⟩, .ok ()⟩

def drvBad : DriveEnv := ⟨.error ⟨"network error"⟩, .ok ()⟩

def rowTree : List (String × String) := [("Content Title", "Tree Pose")]

def rowWarrior : List (String × String) := [("Content Title", "Warrior II")]

/-! ## Polling-loop lemmas -/

/-- A budget of `b` polls none of which report completion is exhausted:
`b` polls, `2 * b` time-units waited, timeout failure. -/
theorem pollAux_noncompleted (f : String → Option (List Nat))
    (st : Nat → PollStatus) :
    ∀ (b a : Nat), (∀ i, i < b → (st (a + i)).state ≠ "completed") →
      pollAux f st a b = (.err .timeoutFailure, b, 2 * b) := by
  intro b
  induction b with
  | zero => intro a _; rfl
  | succ b ih =>
    intro a h
    have h0 : (st a).state ≠ "completed" := by
      have := h 0 (Nat.succ_pos b)
      simpa using this
    have hrec := ih (a + 1) (fun i hi => by
      have := h (i + 1) (Nat.succ_lt_succ hi)
      simpa [Nat.add_assoc, Nat.add_comm 1 i] using this)
    simp only [pollAux, if_neg h0, hrec]
    refine Prod.ext rfl (Prod.ext ?_ ?_) <;> simp <;> omega

/-- The first completed status, seen at poll `k + 1` (zero-based index
`k`), with an image URL whose download succeeds, ends the loop with the
downloaded bytes after `k + 1` polls and `2 * (k + 1)` waited
time-units. -/
theorem pollAux_completes (f : String → Option (List Nat))
    (st : Nat → PollStatus) (u : String) (bytes : List Nat) :
    ∀ (k a b : Nat), k < b →
      (∀ i, i < k → (st (a + i)).state ≠ "completed") →
      (st (a + k)).state = "completed" →
      (st (a + k)).image_url = some u →
      f u = some bytes →
      pollAux f st a b = (.ok bytes, k + 1, 2 * (k + 1)) := by
  intro k
  induction k with
  | zero =>
    intro a b hb _ hc hu hf
    obtain ⟨b', rfl⟩ := Nat.exists_eq_succ_of_ne_zero (Nat.pos_iff_ne_zero.mp hb)
    simp only [Nat.add_zero] at hc hu
    simp [pollAux, hc, hu, hf]
  | succ k ih =>
    intro a b hb h hc hu hf
    obtain ⟨b', rfl⟩ := Nat.exists_eq_succ_of_ne_zero
      (Nat.pos_iff_ne_zero.mp (Nat.lt_of_le_of_lt (Nat.zero_le _) hb))
    have h0 : (st a).state ≠ "completed" := by
      have := h 0 (Nat.succ_pos k)
      simpa using this
    have hshift : ∀ t, a + 1 + t = a + (t + 1) := by intro t; omega
    have hrec := ih (a + 1) b' (Nat.lt_of_succ_lt_succ hb)
      (fun i hi => by rw [hshift]; exact h (i + 1) (Nat.succ_lt_succ hi))
      (by rw [hshift]; exact hc) (by rw [hshift]; exact hu) hf
    simp only [pollAux, if_neg h0, hrec]
    refine Prod.ext rfl (Prod.ext ?_ ?_) <;> simp <;> omega

/-- C1: the polling-asynchronous provider (`generate_image_ideogram`),
given 29 processing statuses followed by a completed one whose image
downloads successfully, succeeds on the 30th poll having waited 2
time-units before each poll (60 in total); given 30 consecutive
non-completed statuses it performs exactly 30 polls, waits 2 time-units
before each (60 in total), and then fails with the timeout failure
(the code logs that generation timed out and returns None). -/
theorem c1_polling_thirty (k g u : String) (bytes : List Nat)
    (st1 st2 : Nat → PollStatus) (f : String → Option (List Nat))
    (h1 : ∀ i, i < 29 → (st1 i).state = "processing")
    (h2 : (st1 29).state = "completed")
    (h3 : (st1 29).image_url = some u)
    (h4 : f u = some bytes)
    (h5 : ∀ i, i < 30 → (st2 i).state ≠ "completed") :
    pollAux f st1 0 30 = (.ok bytes, 30, 60)
    ∧ generate_image_ideogram ⟨some k, some g, st1, f⟩ = some bytes
    ∧ pollAux f st2 0 30 = (.err .timeoutFailure, 30, 60)
    ∧ generate_image_ideogram ⟨some k, some g, st2, f⟩ = none := by
  have hne : ∀ i, i < 29 → (st1 i).state ≠ "completed" := by
    intro i hi
    rw [h1 i hi]
    decide
  have hs : pollAux f st1 0 30 = (.ok bytes, 30, 60) := by
    have := pollAux_completes f st1 u bytes 29 0 30 (by omega)
      (fun i hi => by simpa using hne i hi) (by simpa using h2) (by simpa using h3) h4
    simpa using this
  have ht : pollAux f st2 0 30 = (.err .timeoutFailure, 30, 60) := by
    have := pollAux_noncompleted f st2 30 0 (fun i hi => by simpa using h5 i hi)
    simpa using this
  refine ⟨hs, ?_, ht, ?_⟩
  · simp [generate_image_ideogram, max_attempts, hs]
  · simp [generate_image_ideogram, max_attempts, ht]

/-- Witness for C1 at the sample status sequences. -/
theorem c1_polling_thirty_witness :
    pollAux fetchSample stProcessing 0 30 = (.ok [137, 80, 78, 71], 30, 60)
    ∧ generate_image_ideogram ⟨some "ikey", some "gid", stProcessing, fetchSample⟩
        = some [137, 80, 78, 71]
    ∧ pollAux fetchSample stFailed 0 30 = (.err .timeoutFailure, 30, 60)
    ∧ generate_image_ideogram ⟨some "ikey", some "gid", stFailed, fetchSample⟩ = none :=
  c1_polling_thirty "ikey" "gid" "https://img/u.png" [137, 80, 78, 71]
    stProcessing stFailed fetchSample
    (by decide) (by decide) (by decide) (by decide) (by decide)

/-- C8: the polling loop never terminates early on a non-completed
status: for every status sequence with no completed state in the first
30 polls — including an explicit failed state — the loop performs all
30 polls, waits the full 60 time-units, and only then fails. -/
theorem c8_no_early_termination (st : Nat → PollStatus)
    (f : String → Option (List Nat))
    (h : ∀ i, i < 30 → (st i).state ≠ "completed") :
    pollAux f st 0 30 = (.err .timeoutFailure, 30, 60)
    ∧ ∀ k g : String, generate_image_ideogram ⟨some k, some g, st, f⟩ = none := by
  have ht : pollAux f st 0 30 = (.err .timeoutFailure, 30, 60) := by
    have := pollAux_noncompleted f st 30 0 (fun i hi => by simpa using h i hi)
    simpa using this
  exact ⟨ht, fun k g => by simp [generate_image_ideogram, max_attempts, ht]⟩

/-- Witness for C8 on the always-failed status sequence. -/
theorem c8_no_early_termination_witness :
    pollAux fetchSample stFailed 0 30 = (.err .timeoutFailure, 30, 60)
    ∧ ∀ k g : String,
        generate_image_ideogram ⟨some k, some g, stFailed, fetchSample⟩ = none :=
  c8_no_early_termination stFailed fetchSample (by decide)

/-! ## Replacement-scan lemmas -/

/-- A scan over a string with no occurrence of the pattern leaves it
unchanged, whatever the fuel. -/
theorem pyReplaceAux_of_not_contains (pat rep : List Char) :
    ∀ (fuel : Nat) (s : List Char), containsSub pat s = false →
      pyReplaceAux pat rep fuel s = s := by
  intro fuel
  induction fuel with
  | zero => intro s _; rfl
  | succ fuel ih =>
    intro s hs
    cases s with
    | nil => rfl
    | cons c rest =>
      simp only [containsSub, Bool.or_eq_false_iff] at hs
      simp only [pyReplaceAux, List.append_eq, hs.1, Bool.false_eq_true, if_false,
        ih rest hs.2]

/-- The scan passes unchanged over a prefix inside which no match
starts. -/
theorem pyReplaceAux_scan (pat rep t : List Char) :
    ∀ (p : List Char) (f : Nat),
      (∀ i, i < p.length → pat.isPrefixOf (List.drop i p ++ t) = false) →
      pyReplaceAux pat rep (p.length + f) (p ++ t) = p ++ pyReplaceAux pat rep f t := by
  intro p
  induction p with
  | nil => intro f _; simp
  | cons c p' ih =>
    intro f h
    have h0 : pat.isPrefixOf (c :: (p' ++ t)) = false := by
      have := h 0 (Nat.succ_pos _)
      simpa using this
    have hlen : (c :: p').length + f = (p'.length + f) + 1 := by
      simp only [List.length_cons]
      omega
    rw [hlen, List.cons_append]
    simp only [pyReplaceAux, List.append_eq, h0, Bool.false_eq_true, if_false]
    rw [ih f (fun i hi => by
      have := h (i + 1) (by simpa using Nat.succ_lt_succ hi)
      simpa using this)]
    rfl

/-- A scan over `p ++ pat ++ q` in which the only match is the middle
occurrence of `pat` replaces exactly that occurrence. -/
theorem pyReplaceAux_single (pat rep : List Char) (hne : pat ≠ [])
    (p q : List Char)
    (h1 : ∀ i, i < p.length → pat.isPrefixOf (List.drop i p ++ (pat ++ q)) = false)
    (h2 : containsSub pat q = false) :
    pyReplaceAux pat rep (p.length + (pat.length + q.length)) (p ++ (pat ++ q))
      = p ++ (rep ++ q) := by
  rw [pyReplaceAux_scan pat rep (pat ++ q) p (pat.length + q.length) h1]
  congr 1
  cases pat with
  | nil => exact absurd rfl hne
  | cons c pt =>
    have hlen : (c :: pt).length + q.length = (pt.length + q.length) + 1 := by
      simp only [List.length_cons]
      omega
    rw [hlen, List.cons_append]
    have hpre : (c :: pt).isPrefixOf (c :: (pt ++ q)) = true := by
      have : (c :: pt) <+: (c :: pt) ++ q := List.prefix_append _ _
      simpa using List.isPrefixOf_iff_prefix.mpr this
    simp only [pyReplaceAux, List.append_eq, hpre, if_true]
    have hdrop : List.drop ((c :: pt).length - 1) (pt ++ q) = q := by
      simp
    rw [hdrop, pyReplaceAux_of_not_contains (c :: pt) rep _ q h2]

/-- C7 corrected: `upload_image_to_drive` removes only the literal
substring of an ampersand followed by the export-download parameter
(line 376); when the raw content link carries the parameter preceded
by an ampersand and the parameter text occurs nowhere else, the
returned reference no longer contains it.  (The counterexample shows
the parameter survives when it is the first query parameter, preceded
by a question mark.) -/
theorem c7_amended_strip_download (p q : List Char)
    (h1 : ∀ i, i < p.length →
      List.isPrefixOf ("&export=download".toList)
        (List.drop i p ++ ("&export=download".toList ++ q)) = false)
    (h2 : containsSub ("&export=download".toList) q = false)
    (h3 : containsSub ("export=download".toList) (p ++ q) = false) :
    clean_download_link (String.mk (p ++ ("&export=download".toList ++ q)))
      = String.mk (p ++ q)
    ∧ containsSub ("export=download".toList)
        (clean_download_link
          (String.mk (p ++ ("&export=download".toList ++ q)))).toList = false
    ∧ ∀ (img : List Nat) (fn fid : String),
        upload_image_to_drive
          ⟨.ok ⟨fid, some (String.mk (p ++ ("&export=download".toList ++ q)))⟩, .ok ()⟩
          img fn = .ok (String.mk (p ++ q)) := by
  have hclean : clean_download_link (String.mk (p ++ ("&export=download".toList ++ q)))
      = String.mk (p ++ ("".toList ++ q)) := by
    unfold clean_download_link pyReplace
    congr 1
    have hl : (String.mk (p ++ ("&export=download".toList ++ q))).toList
        = p ++ ("&export=download".toList ++ q) := rfl
    rw [hl]
    have hflen : (p ++ ("&export=download".toList ++ q)).length
        = p.length + (("&export=download".toList).length + q.length) := by
      simp
      omega
    rw [hflen]
    exact pyReplaceAux_single ("&export=download".toList) ("".toList) (by decide) p q h1 h2
  have hclean' : clean_download_link (String.mk (p ++ ("&export=download".toList ++ q)))
      = String.mk (p ++ q) := by simpa using hclean
  refine ⟨hclean', ?_, ?_⟩
  · rw [hclean']
    simpa using h3
  · intro img fn fid
    simp only [upload_image_to_drive, Option.getD]
    rw [hclean']

/-- C7 counterexample: a raw content link in which the
download-forcing parameter is the first query parameter (preceded by a
question mark, not an ampersand) passes through `clean_download_link`
unchanged and the reference returned by `upload_image_to_drive` still
contains the parameter — the claim fails for this placement. -/
theorem c7_counterexample :
    clean_download_link "https://drive.google.com/uc?export=download&id=1"
      = "https://drive.google.com/uc?export=download&id=1"
    ∧ containsSub ("export=download".toList)
        (clean_download_link "https://drive.google.com/uc?export=download&id=1").toList
        = true
    ∧ upload_image_to_drive
        ⟨.ok ⟨"fid", some "https://drive.google.com/uc?export=download&id=1"⟩, .ok ()⟩
        [137] "f.png"
      = .ok "https://drive.google.com/uc?export=download&id=1" := by
  refine ⟨by decide, by decide, ?_⟩
  simp [upload_image_to_drive, Option.getD]
  decide

/-- Witness for C7 on the canonical Drive content link, whose
download-forcing parameter follows an ampersand. -/
theorem c7_amended_strip_download_witness :
    clean_download_link "https://drive.google.com/uc?id=1&export=download"
      = String.mk ("https://drive.google.com/uc?id=1".toList ++ [])
    ∧ containsSub ("export=download".toList)
        (clean_download_link "https://drive.google.com/uc?id=1&export=download").toList
        = false := by
  have h := c7_amended_strip_download ("https://drive.google.com/uc?id=1".toList) []
    (by decide) (by decide) (by decide)
  exact ⟨h.1, h.2.1⟩

/-- One scan step consuming a leading occurrence of the pattern. -/
theorem pyReplaceAux_cons_match (pat rep : List Char) (hne : pat ≠ [])
    (q : List Char) (f : Nat) :
    pyReplaceAux pat rep (f + 1) (pat ++ q) = rep ++ pyReplaceAux pat rep f q := by
  cases pat with
  | nil => exact absurd rfl hne
  | cons c pt =>
    rw [List.cons_append]
    have hpre : (c :: pt).isPrefixOf (c :: (pt ++ q)) = true := by
      have : (c :: pt) <+: (c :: pt) ++ q := List.prefix_append _ _
      simpa using List.isPrefixOf_iff_prefix.mpr this
    simp only [pyReplaceAux, List.append_eq, hpre, if_true]
    congr 1
    simp

/-- The scan over a separator-interleaved list of segments satisfying
`cleanSegs` replaces every separator occurrence — however many — and
leaves the segments themselves untouched. -/
theorem pyReplaceAux_joinSep (pat rep : List Char) (hne : pat ≠ []) :
    ∀ (segs : List (List Char)) (f : Nat), (joinSep pat segs).length ≤ f →
      cleanSegs pat segs = true →
      pyReplaceAux pat rep f (joinSep pat segs) = joinSep rep segs := by
  have hpat : 0 < pat.length := List.length_pos.mpr hne
  intro segs
  induction segs with
  | nil =>
    intro f _ _
    cases f <;> rfl
  | cons p rest ih =>
    cases rest with
    | nil =>
      intro f _ hclean
      have hc : containsSub pat p = false := by
        simp only [cleanSegs, Bool.not_eq_true'] at hclean
        exact hclean
      exact pyReplaceAux_of_not_contains pat rep f p hc
    | cons q rs =>
      intro f hf hclean
      simp only [cleanSegs, Bool.and_eq_true] at hclean
      obtain ⟨hall, hrest⟩ := hclean
      have hscan : ∀ i, i < p.length →
          pat.isPrefixOf (List.drop i p ++ (pat ++ joinSep pat (q :: rs))) = false := by
        intro i hi
        have h := List.all_eq_true.mp hall i (List.mem_range.mpr hi)
        rwa [Bool.not_eq_true'] at h
      simp only [joinSep, List.length_append] at hf
      obtain ⟨f1, rfl⟩ : ∃ f1, f = p.length + f1 := ⟨f - p.length, by omega⟩
      show pyReplaceAux pat rep (p.length + f1) (p ++ (pat ++ joinSep pat (q :: rs)))
        = p ++ (rep ++ joinSep rep (q :: rs))
      rw [pyReplaceAux_scan pat rep (pat ++ joinSep pat (q :: rs)) p f1 hscan]
      congr 1
      obtain ⟨f2, rfl⟩ : ∃ f2, f1 = f2 + 1 := ⟨f1 - 1, by omega⟩
      rw [pyReplaceAux_cons_match pat rep hne _ f2]
      congr 1
      exact ih f2 (by omega) hrest

/-- Equation connecting `craft_prompt` to the assembled prompt. -/
theorem craft_prompt_eq_assembled (d : List (String × String)) :
    craft_prompt d
      = pyStrip (pyReplace "  " " "
          (pyReplace "None" "" (String.mk (assembled_prompt d)))) := rfl

/-- C9: `craft_prompt` deletes every occurrence of the literal text
None from the assembled prompt (line 135).  For every row, decomposing
its assembled prompt into the segments standing between the None
occurrences (any number of them; `cleanSegs` states that the
occurrences are exactly where the left-to-right scan matches), the
None-removal stage deletes all the separators and keeps the segments,
so the generated prompt is the cleaned-up concatenation of the
segments.  Concretely, the title Nonexistent loses its leading four
characters and a title consisting of three None occurrences vanishes
from the prompt entirely. -/
theorem c9_none_removed :
    (∀ segs : List (List Char), cleanSegs ("None".toList) segs = true →
      pyReplace "None" "" (String.mk (joinSep ("None".toList) segs))
        = String.mk (joinSep [] segs))
    ∧ (∀ (d : List (String × String)) (segs : List (List Char)),
        assembled_prompt d = joinSep ("None".toList) segs →
        cleanSegs ("None".toList) segs = true →
        craft_prompt d
          = pyStrip (pyReplace "  " " " (String.mk (joinSep [] segs))))
    ∧ craft_prompt [("Content Title", "Nonexistent")] = "xistent yoga pose, background."
    ∧ craft_prompt [("Content Title", "None None None")] = "yoga pose, background." := by
  have hcore : ∀ segs : List (List Char), cleanSegs ("None".toList) segs = true →
      pyReplace "None" "" (String.mk (joinSep ("None".toList) segs))
        = String.mk (joinSep [] segs) := by
    intro segs hclean
    unfold pyReplace
    congr 1
    have hl : (String.mk (joinSep ("None".toList) segs)).toList
        = joinSep ("None".toList) segs := rfl
    rw [hl]
    exact pyReplaceAux_joinSep ("None".toList) ("".toList) (by decide) segs
      (joinSep ("None".toList) segs).length le_rfl hclean
  refine ⟨hcore, ?_, by decide, by decide⟩
  intro d segs hdec hclean
  rw [craft_prompt_eq_assembled d, hdec, hcore segs hclean]

/-- Witness for C9 on a two-occurrence string and on the
three-occurrence title row. -/
theorem c9_none_removed_witness :
    pyReplace "None" ""
      (String.mk (joinSep ("None".toList) ["my ".toList, " and ".toList, " end".toList]))
      = String.mk (joinSep [] ["my ".toList, " and ".toList, " end".toList])
    ∧ craft_prompt [("Content Title", "None None None")]
        = pyStrip (pyReplace "  " " " (String.mk (joinSep []
            [" ".toList, " ".toList, " ".toList, " yoga pose,  background. ".toList])))
    ∧ craft_prompt [("Content Title", "None None None")] = "yoga pose, background." :=
  ⟨c9_none_removed.1 ["my ".toList, " and ".toList, " end".toList] (by decide),
   c9_none_removed.2.1 [("Content Title", "None None None")]
     [" ".toList, " ".toList, " ".toList, " yoga pose,  background. ".toList]
     (by decide) (by decide),
   c9_none_removed.2.2.2⟩

/-! ## Strip lemmas for the prompt builder -/

/-- The first element surviving `dropWhile` falsifies the predicate. -/
theorem head_dropWhile_not (p : Char → Bool) :
    ∀ (l : List Char) (c : Char), (l.dropWhile p).head? = some c → p c = false := by
  intro l
  induction l with
  | nil => intro c h; simp at h
  | cons a l ih =>
    intro c h
    by_cases hpa : p a
    · rw [List.dropWhile_cons, if_pos hpa] at h
      exact ih c h
    · rw [List.dropWhile_cons, if_neg hpa] at h
      simp only [List.head?_cons, Option.some.injEq] at h
      rw [← h]
      exact Bool.eq_false_iff.mpr hpa

/-- A nonempty suffix ends where the whole list ends. -/
theorem getLast?_of_suffix {l m : List Char} (h : l <:+ m) (hne : l ≠ []) :
    l.getLast? = m.getLast? := by
  obtain ⟨t, rfl⟩ := h
  exact (List.getLast?_append_of_ne_nil t hne).symm

/-- The string produced by `pyStripL` does not begin with
whitespace. -/
theorem pyStripL_head_not_space (s : List Char) (c : Char)
    (h : (pyStripL s).head? = some c) : isPySpace c = false := by
  unfold pyStripL at h
  rw [List.head?_reverse] at h
  have hne : ((s.dropWhile isPySpace).reverse.dropWhile isPySpace) ≠ [] := by
    intro hnil
    rw [hnil] at h
    simp at h
  rw [getLast?_of_suffix (List.dropWhile_suffix isPySpace) hne,
    List.getLast?_reverse] at h
  exact head_dropWhile_not isPySpace s c h

/-- The string produced by `pyStripL` does not end with whitespace. -/
theorem pyStripL_getLast_not_space (s : List Char) (c : Char)
    (h : (pyStripL s).getLast? = some c) : isPySpace c = false := by
  unfold pyStripL at h
  rw [List.getLast?_reverse] at h
  exact head_dropWhile_not isPySpace _ c h

/-- The character list of a crafted prompt, by definition. -/
theorem craft_prompt_toList (d : List (String × String)) :
    (craft_prompt d).toList
      = pyStripL ((pyReplace "  " " " (pyReplace "None" ""
          (dictGet d "Image Style" ++ " " ++ dictGet d "Content Title"
            ++ " yoga pose, " ++ dictGet d "Background Color"
            ++ " background. " ++ dictGet d "Theme Description"))).toList) := rfl

/-- One pass of the double-space replacement over a run of `k` spaces
leaves a run of `(k + 1) / 2` spaces (so a run of 3 or more spaces is
shortened but not collapsed to a single space). -/
theorem pyReplaceAux_spaces :
    ∀ (k f : Nat), k ≤ f →
      pyReplaceAux [' ', ' '] [' '] f (List.replicate k ' ')
        = List.replicate ((k + 1) / 2) ' ' := by
  intro k
  induction k using Nat.strong_induction_on with
  | _ k ih =>
    match k with
    | 0 =>
      intro f _
      cases f <;> rfl
    | 1 =>
      intro f hf
      obtain ⟨f', rfl⟩ := @Nat.exists_eq_succ_of_ne_zero f (by omega)
      show pyReplaceAux [' ', ' '] [' '] (f' + 1) [' '] = [' ']
      simp only [pyReplaceAux, List.isPrefixOf]
      norm_num
      cases f' <;> rfl
    | (k + 2) =>
      intro f hf
      obtain ⟨f', rfl⟩ := @Nat.exists_eq_succ_of_ne_zero f (by omega)
      have hrep : List.replicate (k + 2) ' ' = ' ' :: ' ' :: List.replicate k ' ' := by
        simp [List.replicate_succ]
      rw [hrep]
      have hpre : List.isPrefixOf [' ', ' '] (' ' :: ' ' :: List.replicate k ' ') = true := by
        simp [List.isPrefixOf]
      simp only [pyReplaceAux, hpre, if_true]
      have hdrop : List.drop ([' ', ' '].length - 1) (' ' :: List.replicate k ' ')
          = List.replicate k ' ' := by simp
      rw [hdrop, ih k (by omega) f' (by omega)]
      have harith : (k + 2 + 1) / 2 = (k + 1) / 2 + 1 := by omega
      rw [harith, List.replicate_succ]
      rfl

/-- C6 counterexample: the claim that every run of repeated interior
whitespace is collapsed to a single space fails — `craft_prompt` does
a single left-to-right replacement pass, so a style of
`flat   art` (three interior spaces) leaves a double space in the
output. -/
theorem c6_counterexample :
    craft_prompt [("Content Title", "tree"), ("Image Style", "flat   art")]
      = "flat  art tree yoga pose, background."
    ∧ containsSub ("  ".toList)
        (craft_prompt
          [("Content Title", "tree"), ("Image Style", "flat   art")]).toList = true := by
  constructor
  · decide
  · decide

/-- C6 corrected: `craft_prompt` is a pure, deterministic, total
function of the row; absent fields contribute empty text and the
all-absent row yields the fixed residue; leading and trailing
whitespace is trimmed (the first and last characters of every prompt
are non-whitespace); and the interior-whitespace normalization is a
single left-to-right pass replacing each non-overlapping space pair
with one space, so a run of `k` spaces becomes `(k + 1) / 2` spaces
rather than always one. -/
theorem c6_amended_prompt_normalization :
    (∀ d : List (String × String),
      dictGet d "Image Style" = "" → dictGet d "Background Color" = "" →
      dictGet d "Theme Description" = "" → dictGet d "Content Title" = "" →
      craft_prompt d = "yoga pose, background.")
    ∧ (∀ (d : List (String × String)) (c : Char),
        ((craft_prompt d).toList.head? = some c → isPySpace c = false)
        ∧ ((craft_prompt d).toList.getLast? = some c → isPySpace c = false))
    ∧ (∀ k : Nat,
        pyReplace "  " " " (String.mk (List.replicate k ' '))
          = String.mk (List.replicate ((k + 1) / 2) ' ')) := by
  refine ⟨?_, ?_, ?_⟩
  · intro d h1 h2 h3 h4
    simp only [craft_prompt, h1, h2, h3, h4]
    decide
  · intro d c
    rw [craft_prompt_toList]
    exact ⟨pyStripL_head_not_space _ c, pyStripL_getLast_not_space _ c⟩
  · intro k
    unfold pyReplace
    congr 1
    have hpat : ("  " : String).toList = [' ', ' '] := rfl
    have hrep : (" " : String).toList = [' '] := rfl
    have hl : (String.mk (List.replicate k ' ')).toList = List.replicate k ' ' := rfl
    rw [hpat, hrep, hl, List.length_replicate]
    exact pyReplaceAux_spaces k k le_rfl

/-- Witness for C6 at the all-absent row and a five-space run. -/
theorem c6_amended_prompt_normalization_witness :
    craft_prompt [] = "yoga pose, background."
    ∧ pyReplace "  " " " (String.mk (List.replicate 5 ' '))
        = String.mk (List.replicate 3 ' ') :=
  ⟨c6_amended_prompt_normalization.1 [] rfl rfl rfl rfl,
   c6_amended_prompt_normalization.2.2 5⟩

/-! ## Row-loop claims -/

/-- C2 counterexample: a transport failure during the Drive upload of
the first row escapes the per-row boundary — the run aborts with the
error and the second row (non-empty title) is never processed: no
prompt for it appears among the effects.  This contradicts the claim
that every row-local failure, including upload and sheet-write
failures, is recorded for that row only while the batch continues. -/
theorem c2_counterexample :
    runRows "openai" (fun _ => pensSample) (fun _ => drvBad) (fun _ => Except.ok ()) 0
        [rowTree, rowWarrior]
      = ([Effect.promptSent "Tree Pose yoga pose, background."],
         some (TransportError.mk "network error")) := by
  decide

/-- C2 corrected: generation failures (`generate_image` returning no
image — provider errors, timeouts, and transport errors inside the
provider-internal try/except) are row-local: the row records only its
prompt and the loop continues with the next row.  But a transport
failure in either unprotected call — the Drive upload or the
sheet-cell update — escapes the per-row boundary and aborts the run
with that error, recording for the row only the effects already
performed. -/
theorem c2_amended_row_failures (api : String) (pens : Nat → ProviderEnvs)
    (denvs : Nat → DriveEnv) (ures : Nat → Except TransportError Unit)
    (i : Nat) (pose : List (String × String)) (rest : List (List (String × String)))
    (hname : dictGet pose "Content Title" ≠ "") :
    (generate_image (pens i) (craft_prompt pose) api = none →
      runRows api pens denvs ures i (pose :: rest)
        = (Effect.promptSent (craft_prompt pose)
            :: (runRows api pens denvs ures (i + 1) rest).1,
           (runRows api pens denvs ures (i + 1) rest).2))
    ∧ (∀ (img : List Nat) (e : TransportError),
        generate_image (pens i) (craft_prompt pose) api = some img →
        (denvs i).createResult = .error e →
        runRows api pens denvs ures i (pose :: rest)
          = ([Effect.promptSent (craft_prompt pose)], some e))
    ∧ (∀ (img : List Nat) (url : String) (e : TransportError),
        generate_image (pens i) (craft_prompt pose) api = some img →
        upload_image_to_drive (denvs i) img
          (pose_filename (dictGet pose "Content Title")) = .ok url →
        ures i = .error e →
        runRows api pens denvs ures i (pose :: rest)
          = ([Effect.promptSent (craft_prompt pose),
              Effect.uploaded (pose_filename (dictGet pose "Content Title")) url],
             some e)) := by
  refine ⟨?_, ?_, ?_⟩
  · intro hg
    simp [runRows, processRow, hname, hg]
  · intro img e hg hd
    simp [runRows, processRow, hname, hg, upload_image_to_drive, hd]
  · intro img url e hg hu hue
    simp [runRows, processRow, hname, hg, hu, hue]

/-- Witness for C2: the aborting upload failure and the aborting
sheet-update failure at concrete runs. -/
theorem c2_amended_row_failures_witness :
    runRows "openai" (fun _ => pensSample) (fun _ => drvBad) (fun _ => Except.ok ()) 0
        [rowTree]
      = ([Effect.promptSent (craft_prompt rowTree)],
         some (TransportError.mk "network error"))
    ∧ runRows "openai" (fun _ => pensSample) (fun _ => drvOk)
        (fun _ => Except.error (TransportError.mk "sheet update failed")) 0 [rowTree]
      = ([Effect.promptSent (craft_prompt rowTree),
          Effect.uploaded (pose_filename "Tree Pose") "https://drive.google.com/uc?id=1"],
         some (TransportError.mk "sheet update failed")) :=
  ⟨(c2_amended_row_failures "openai" (fun _ => pensSample) (fun _ => drvBad)
       (fun _ => Except.ok ()) 0 rowTree [] (by decide)).2.1
     [137, 80] (TransportError.mk "network error") (by decide) rfl,
   (c2_amended_row_failures "openai" (fun _ => pensSample) (fun _ => drvOk)
       (fun _ => Except.error (TransportError.mk "sheet update failed")) 0 rowTree []
       (by decide)).2.2
     [137, 80] "https://drive.google.com/uc?id=1"
     (TransportError.mk "sheet update failed") (by decide) rfl rfl⟩

/-- C3 counterexample: a missing provider credential and an
unrecognized provider selection do not abort the run and do not raise
before any row is processed — the row is still processed (its prompt
is crafted and handed to the dispatcher), the generate call returns no
image, and the run finishes normally. -/
theorem c3_counterexample :
    runRows "openai" (fun _ => pensNoKey) (fun _ => drvOk) (fun _ => Except.ok ()) 0 [rowTree]
      = ([Effect.promptSent "Tree Pose yoga pose, background."], none)
    ∧ runRows "foo" (fun _ => pensSample) (fun _ => drvOk) (fun _ => Except.ok ()) 0 [rowTree]
      = ([Effect.promptSent "Tree Pose yoga pose, background."], none) := by
  constructor
  · decide
  · decide

/-- C3 corrected: a missing provider API credential or an
unrecognized provider selection is handled as a per-row generation
failure, not a run-aborting configuration failure: the affected
`generate` call returns no image (each provider checks its own key and
the dispatcher returns `None` for an unknown key, logging the error),
the row is skipped, and the batch continues.  An unrecognized
selection is never silently defaulted to some provider: whatever the
provider environments would return, the dispatch yields no image. -/
theorem c3_amended_config_failures :
    (∀ env : OpenAIEnv, env.apiKey = none → generate_image_openai env = none)
    ∧ (∀ env : IdeoEnv, env.apiKey = none → generate_image_ideogram env = none)
    ∧ (∀ env : StabilityEnv, env.apiKey = none → generate_image_stability env = none)
    ∧ (∀ (pens : ProviderEnvs) (prompt api : String),
        api ≠ "openai" → api ≠ "ideogram" → api ≠ "stability" →
        generate_image pens prompt api = none)
    ∧ (∀ (api : String) (pens : Nat → ProviderEnvs) (denvs : Nat → DriveEnv)
        (ures : Nat → Except TransportError Unit) (i : Nat)
        (pose : List (String × String)) (rest : List (List (String × String))),
        generate_image (pens i) (craft_prompt pose) api = none →
        (runRows api pens denvs ures i (pose :: rest)).2
          = (runRows api pens denvs ures (i + 1) rest).2) := by
  refine ⟨?_, ?_, ?_, ?_, ?_⟩
  · intro env h
    simp [generate_image_openai, h]
  · intro env h
    simp [generate_image_ideogram, h]
  · intro env h
    simp [generate_image_stability, h]
  · intro pens prompt api h1 h2 h3
    simp [generate_image, h1, h2, h3]
  · intro api pens denvs ures i pose rest hg
    by_cases hname : dictGet pose "Content Title" = ""
    · simp [runRows, processRow, hname]
    · simp [runRows, processRow, hname, hg]

/-- Witness for C3 on a missing key and an unknown provider name. -/
theorem c3_amended_config_failures_witness :
    generate_image_openai ⟨none, some [1]⟩ = none
    ∧ generate_image pensSample "p" "midjourney" = none
    ∧ (runRows "openai" (fun _ => pensNoKey) (fun _ => drvOk)
        (fun _ => Except.ok ()) 0 [rowTree]).2
      = (runRows "openai" (fun _ => pensNoKey) (fun _ => drvOk)
          (fun _ => Except.ok ()) 1 []).2 :=
  ⟨c3_amended_config_failures.1 ⟨none, some [1]⟩ rfl,
   c3_amended_config_failures.2.2.2.1 pensSample "p" "midjourney"
     (by decide) (by decide) (by decide),
   c3_amended_config_failures.2.2.2.2 "openai" (fun _ => pensNoKey) (fun _ => drvOk)
     (fun _ => Except.ok ()) 0 rowTree [] (by decide)⟩

/-- C4: a row with an empty title is skipped with zero side effects
and zero outcomes — no prompt, no upload, no sheet write — and leaves
the batch exactly as if the row were absent; a row with a non-empty
title hands at most one prompt to the dispatcher, at most one
generation result to storage, and performs at most one sheet write. -/
theorem c4_row_side_effects (api : String) (pens : ProviderEnvs) (denv : DriveEnv)
    (ures : Except TransportError Unit) (i : Nat) (pose : List (String × String))
    (pensf : Nat → ProviderEnvs) (denvsf : Nat → DriveEnv)
    (uresf : Nat → Except TransportError Unit) (rest : List (List (String × String))) :
    (dictGet pose "Content Title" = "" →
      processRow api pens denv ures i pose = ([], none)
      ∧ runRows api pensf denvsf uresf i (pose :: rest)
          = runRows api pensf denvsf uresf (i + 1) rest)
    ∧ countPrompts (processRow api pens denv ures i pose).1 ≤ 1
    ∧ countUploads (processRow api pens denv ures i pose).1 ≤ 1
    ∧ countWrites (processRow api pens denv ures i pose).1 ≤ 1 := by
  have hcounts : countPrompts (processRow api pens denv ures i pose).1 ≤ 1
      ∧ countUploads (processRow api pens denv ures i pose).1 ≤ 1
      ∧ countWrites (processRow api pens denv ures i pose).1 ≤ 1 := by
    by_cases hname : dictGet pose "Content Title" = ""
    · simp [processRow, hname, countPrompts, countUploads, countWrites]
    · rcases hg : generate_image pens (craft_prompt pose) api with _ | img
      · simp [processRow, hname, hg, countPrompts, countUploads, countWrites]
      · rcases hu : upload_image_to_drive denv img
            (pose_filename (dictGet pose "Content Title")) with e | url
        · simp [processRow, hname, hg, hu, countPrompts, countUploads, countWrites]
        · cases ures with
          | error e2 =>
            simp [processRow, hname, hg, hu, countPrompts, countUploads, countWrites]
          | ok u =>
            simp [processRow, hname, hg, hu, countPrompts, countUploads, countWrites]
  refine ⟨?_, hcounts⟩
  intro hname
  constructor
  · simp [processRow, hname]
  · simp [runRows, processRow, hname]

/-- Witness for C4 at an empty-title row and the sample row. -/
theorem c4_row_side_effects_witness :
    processRow "openai" pensSample drvOk (Except.ok ()) 0 [("Content Title", "")]
      = ([], none)
    ∧ countWrites (processRow "openai" pensSample drvOk (Except.ok ()) 0 rowTree).1 ≤ 1 :=
  ⟨((c4_row_side_effects "openai" pensSample drvOk (Except.ok ()) 0
      [("Content Title", "")] (fun _ => pensSample) (fun _ => drvOk)
      (fun _ => Except.ok ()) []).1 (by decide)).1,
   (c4_row_side_effects "openai" pensSample drvOk (Except.ok ()) 0 rowTree
      (fun _ => pensSample) (fun _ => drvOk) (fun _ => Except.ok ()) []).2.2.2⟩

/-- C5: the sheet write for the data row at zero-based index `i` (the
loop passes `i + 1` and `update_sheet_with_image` adds one more)
targets the fixed column E at sheet row `i + 2` — data index 0 goes to
row 2, index 1 to row 3, index 2 to row 4 — and the written value is
the image-display formula embedding the URL. -/
theorem c5_sheet_row_mapping :
    (∀ (i : Nat) (url : String),
      update_sheet_with_image (i + 1) url
        = ("Sheet1!E" ++ toString (i + 2), "=IMAGE(\"" ++ url ++ "\", 3)"))
    ∧ (update_sheet_with_image (0 + 1) "u").1 = "Sheet1!E2"
    ∧ (update_sheet_with_image (1 + 1) "u").1 = "Sheet1!E3"
    ∧ (update_sheet_with_image (2 + 1) "u").1 = "Sheet1!E4"
    ∧ (∀ (api : String) (pens : ProviderEnvs) (denv : DriveEnv) (i : Nat)
        (pose : List (String × String)) (img : List Nat) (url : String),
        dictGet pose "Content Title" ≠ "" →
        generate_image pens (craft_prompt pose) api = some img →
        upload_image_to_drive denv img (pose_filename (dictGet pose "Content Title"))
          = .ok url →
        processRow api pens denv (Except.ok ()) i pose
          = ([Effect.promptSent (craft_prompt pose),
              Effect.uploaded (pose_filename (dictGet pose "Content Title")) url,
              Effect.sheetWrite ("Sheet1!E" ++ toString (i + 2))
                ("=IMAGE(\"" ++ url ++ "\", 3)")], none)) := by
  refine ⟨fun i url => rfl, rfl, rfl, rfl, ?_⟩
  intro api pens denv i pose img url hname hg hu
  simp [processRow, hname, hg, hu, update_sheet_with_image]

/-- Witness for C5: a successful sample row at data index 0 writes the
formula at Sheet1!E2. -/
theorem c5_sheet_row_mapping_witness :
    processRow "openai" pensSample drvOk (Except.ok ()) 0 rowTree
      = ([Effect.promptSent (craft_prompt rowTree),
          Effect.uploaded (pose_filename "Tree Pose") "https://drive.google.com/uc?id=1",
          Effect.sheetWrite "Sheet1!E2"
            "=IMAGE(\"https://drive.google.com/uc?id=1\", 3)"], none) := by
  have h := c5_sheet_row_mapping.2.2.2.2 "openai" pensSample drvOk 0 rowTree
    [137, 80] "https://drive.google.com/uc?id=1" (by decide) (by decide) rfl
  exact h

/-! ## Sheet-row normalization (C10) -/

/-- Unfolding of `sheet_row_dict` at a header and a row cell. -/
theorem sheet_row_dict_cons_cons (h r : String) (hs rs : List String) :
    sheet_row_dict (h :: hs) (r :: rs) = (h, r) :: sheet_row_dict hs rs := by
  simp [sheet_row_dict, row_extended, Nat.succ_sub_succ]

/-- Unfolding of `sheet_row_dict` at a header beyond the end of the row. -/
theorem sheet_row_dict_cons_nil (h : String) (hs : List String) :
    sheet_row_dict (h :: hs) [] = (h, "") :: sheet_row_dict hs [] := by
  simp [sheet_row_dict, row_extended, List.replicate_succ]

/-- C10: every raw data row is normalized to exactly one value per
header column — the dict built for a row has one entry per header;
entry `i` pairs header `i` with cell `i` when the row is long enough
and with the empty string otherwise (short rows are right-padded,
surplus cells beyond the headers are dropped by the zip); and an empty
value-range response yields an empty row sequence. -/
theorem c10_row_normalization :
    (∀ headers row : List String, (sheet_row_dict headers row).length = headers.length)
    ∧ (∀ (headers row : List String) (i : Nat), i < headers.length →
        (sheet_row_dict headers row).getD i ("", "")
          = (headers.getD i "", if i < row.length then row.getD i "" else ""))
    ∧ get_sheet_data [] = [] := by
  refine ⟨?_, ?_, rfl⟩
  · intro headers row
    simp only [sheet_row_dict, row_extended, List.length_zip, List.length_append,
      List.length_replicate]
    omega
  · intro headers
    induction headers with
    | nil =>
      intro row i hi
      simp at hi
    | cons h hs ih =>
      intro row i hi
      cases row with
      | nil =>
        rw [sheet_row_dict_cons_nil]
        cases i with
        | zero => simp
        | succ i =>
          simp only [List.getD_cons_succ]
          have := ih [] i (by simpa using hi)
          simpa using this
      | cons r rs =>
        rw [sheet_row_dict_cons_cons]
        cases i with
        | zero => simp
        | succ i =>
          simp only [List.getD_cons_succ, List.length_cons, Nat.succ_lt_succ_iff]
          exact ih rs i (by simpa using hi)

/-- Witness for C10: padding of a short row and truncation of a long
row at concrete inputs. -/
theorem c10_row_normalization_witness :
    (sheet_row_dict ["a", "b", "c"] ["1"]).getD 1 ("", "") = ("b", "")
    ∧ (sheet_row_dict ["a", "b"] ["1", "2", "3"]).length = 2 :=
  ⟨(c10_row_normalization.2.1 ["a", "b", "c"] ["1"] 1 (by decide)).trans (by decide),
   c10_row_normalization.1 ["a", "b"] ["1", "2", "3"]⟩

end YogaGen
